import Mathlib

/-!
Verification of the emulateme NES emulator core against its natural-language
specification.  The Rust sources under `src/` are shallowly embedded below:
machine integers (`u8`, `u16`, `u64`) become `Nat` with explicit `% 2^w`
reductions exactly where the source performs wrapping arithmetic or moves a
value into a wider type; fixed-size Rust arrays become total functions
`Nat → _` indexed below their length, updated with `upd`; fallible Rust code
returning `Result` becomes `Except`, and code that can panic (out-of-bounds
indexing, arithmetic underflow in debug builds) is wrapped in `Option`, with
`none` standing for a panic.
-/

/-- Pointwise update of a function model of a mutable array cell. -/
def upd (f : Nat → Nat) (i v : Nat) : Nat → Nat :=
  fun j => if j = i then v else f j

/-- Signed reading of a byte, `x as i8` in the source. -/
def toSigned (n : Nat) : Int :=
  if n % 256 < 128 then (n % 256 : Int) else (n % 256 : Int) - 256

/-- `bitflags` set operation `p.set(flag, b)` on a status byte. -/
def flagSet (p flag : Nat) (b : Bool) : Nat :=
  if b then p ||| flag else p &&& (0xFF ^^^ flag)

/-- `bitflags` membership test `p.contains(flag)`. -/
def flagContains (p flag : Nat) : Bool :=
  p &&& flag = flag

/-! ## Rom (src/src/rom.rs)

`prg_rom`/`chr_rom` are `Vec<u8>`; each is a byte function plus a length.
Indexing checks the length: an out-of-range access is a Rust panic (`none`). -/

structure Rom where
  prg : Nat → Nat
  prgLen : Nat
  chr : Nat → Nat
  chrLen : Nat

/-! ## PPU (src/src/ppu.rs) -/

/-- `PpuMemoryError` from src/src/ppu.rs. -/
inductive PpuMemoryError where
  | unmappedRead (address : Nat)
  | unmappedWrite (address : Nat)
  | oamAccess (address : Nat)
  | paletteAccess (address : Nat)
deriving DecidableEq, Repr

/-- `Sprite { y, number, mask, x }` from src/src/ppu.rs. -/
structure Sprite where
  y : Nat
  number : Nat
  mask : Nat
  x : Nat
deriving DecidableEq, Repr

/-- `Sprite::default()`: off-screen sprite. -/
def Sprite.default : Sprite := ⟨0xFF, 0, 0, 0⟩

/-- `Sprite::read` (src/src/ppu.rs:109): panics (`none`) above index 3. -/
def Sprite.get (s : Sprite) (address : Nat) : Option Nat :=
  match address with
  | 0 => some s.y
  | 1 => some s.number
  | 2 => some s.mask
  | 3 => some s.x
  | _ => none

/-- `Sprite::write` (src/src/ppu.rs:119): panics (`none`) above index 3. -/
def Sprite.put (s : Sprite) (address value : Nat) : Option Sprite :=
  match address with
  | 0 => some { s with y := value }
  | 1 => some { s with number := value }
  | 2 => some { s with mask := value }
  | 3 => some { s with x := value }
  | _ => none

/-- `PaletteMemory`: one solid byte plus two 4×3 byte tables
(`background: [Palette; 4]`, `sprite: [Palette; 4]`, `Palette = [u8; 3]`). -/
structure PaletteMemory where
  backgroundSolid : Nat
  background : Nat → Nat → Nat
  sprite : Nat → Nat → Nat

/-- `PaletteMemory::default()`. -/
def PaletteMemory.default : PaletteMemory :=
  ⟨0, fun _ _ => 0, fun _ _ => 0⟩

/-- `PaletteMemory::get` (src/src/ppu.rs:246).  The source reduces the address
`% 0x20` and then, in the `0x01..=0x0F` and `0x11..=0x1F` arms, subtracts
`0x3F01` (resp. `0x3F11`) from the already-reduced offset.  That `u16`
subtraction wraps (release build), producing a page index far above the
4-entry arrays, so the subsequent `self.background[page][index]` access is
out of bounds: a panic, modelled as `none`.  (A debug build panics one line
earlier, on the underflow itself.) -/
def PaletteMemory.get (p : PaletteMemory) (address : Nat) : Option (Except PpuMemoryError Nat) :=
  let address := address % 0x20
  if address = 0x00 then some (.ok p.backgroundSolid)
  else if address ≤ 0x0F then
    let base := (address + 0x10000 - 0x3F01) % 0x10000
    let page := base / 4
    let index := base % 4
    if page < 4 ∧ index < 3 then some (.ok (p.background page index)) else none
  else if address = 0x10 then some (.ok p.backgroundSolid)
  else if address ≤ 0x1F then
    let base := (address + 0x10000 - 0x3F11) % 0x10000
    let page := base / 4
    let index := base % 4
    if page < 4 ∧ index < 3 then some (.ok (p.sprite page index)) else none
  else some (.error (.paletteAccess address))

/-- `PaletteMemory::set` (src/src/ppu.rs:270): reduces the address `% 0x20`,
writes the solid byte at offset `0x00`/`0x10`, and stores into the tables at
`base = offset - 0x01` (resp. `- 0x11`) only when `base % 4 < 3`; the fourth
column of each page is silently dropped. -/
def PaletteMemory.set (p : PaletteMemory) (address value : Nat) : Except PpuMemoryError PaletteMemory :=
  let address := address % 0x20
  if address = 0x00 then .ok { p with backgroundSolid := value }
  else if address ≤ 0x0F then
    let base := address - 0x01
    let page := base / 4
    let index := base % 4
    if index < 3 then
      .ok { p with background := fun pg ix =>
        if pg = page ∧ ix = index then value else p.background pg ix }
    else .ok p
  else if address = 0x10 then .ok { p with backgroundSolid := value }
  else if address ≤ 0x1F then
    let base := address - 0x11
    let page := base / 4
    let index := base % 4
    if index < 3 then
      .ok { p with sprite := fun pg ix =>
        if pg = page ∧ ix = index then value else p.sprite pg ix }
    else .ok p
  else .error (.paletteAccess address)

/-- `ControlRegister` flags. -/
structure ControlRegister where
  increment32 : Bool
  baseSpritePatternTable : Bool
  baseBackgroundPatternTable : Bool
  spriteSize : Bool
  ppuColorExt : Bool
  genNmi : Bool
deriving DecidableEq, Repr

def ControlRegister.default : ControlRegister :=
  ⟨false, false, false, false, false, false⟩

/-- `ControlRegister::from_bits` (src/src/ppu.rs:140). -/
def ControlRegister.fromBits (value : Nat) : ControlRegister :=
  ⟨value &&& 0b00000100 ≠ 0,
   value &&& 0b00001000 ≠ 0,
   value &&& 0b00010000 ≠ 0,
   value &&& 0b00100000 ≠ 0,
   value &&& 0b01000000 ≠ 0,
   value &&& 0b10000000 ≠ 0⟩

/-- `MaskRegister` flags. -/
structure MaskRegister where
  greyscale : Bool
  showBackgroundLeftmost : Bool
  showSpritesLeftmost : Bool
  showBackground : Bool
  showSprites : Bool
  emphasizeRed : Bool
  emphasizeGreen : Bool
  emphasizeBlue : Bool
deriving DecidableEq, Repr

def MaskRegister.default : MaskRegister :=
  ⟨false, false, false, false, false, false, false, false⟩

/-- `MaskRegister::from_bits` (src/src/ppu.rs:153). -/
def MaskRegister.fromBits (value : Nat) : MaskRegister :=
  ⟨value &&& 0b00000001 ≠ 0,
   value &&& 0b00000010 ≠ 0,
   value &&& 0b00000100 ≠ 0,
   value &&& 0b00001000 ≠ 0,
   value &&& 0b00010000 ≠ 0,
   value &&& 0b00100000 ≠ 0,
   value &&& 0b01000000 ≠ 0,
   value &&& 0b10000000 ≠ 0⟩

/-- PPU `StatusRegister { sprite_hit, v_blank_hit }`. -/
structure PpuStatus where
  spriteHit : Bool
  vBlankHit : Bool
deriving DecidableEq, Repr

/-- `StatusRegister::default()` (src/src/ppu.rs:130): vblank starts raised. -/
def PpuStatus.default : PpuStatus := ⟨false, true⟩

/-- `StatusRegister::bits` (src/src/ppu.rs:168):
`sprite_hit << 6 | v_blank_hit << 7`. -/
def PpuStatus.bits (s : PpuStatus) : Nat :=
  (if s.spriteHit then 0b01000000 else 0) ||| (if s.vBlankHit then 0b10000000 else 0)

/-- The loopy `RenderRegister { t, v, x, w }`. -/
structure RenderRegister where
  t : Nat
  v : Nat
  x : Nat
  w : Bool
deriving DecidableEq, Repr

def RenderRegister.default : RenderRegister := ⟨0, 0, 0, false⟩

/-- `RenderRegister::write_control` (src/src/ppu.rs:193). -/
def RenderRegister.writeControl (r : RenderRegister) (value : Nat) : RenderRegister :=
  { r with t := (r.t &&& 0b1111001111111111) ||| (((value &&& 0b11)) <<< 10) }

/-- `RenderRegister::read_status` (src/src/ppu.rs:197): only resets `w`. -/
def RenderRegister.readStatus (r : RenderRegister) : RenderRegister :=
  { r with w := false }

/-- `RenderRegister::write_scroll` (src/src/ppu.rs:201). -/
def RenderRegister.writeScroll (r : RenderRegister) (value : Nat) : RenderRegister :=
  let value := value % 256
  if r.w then
    let low := (value &&& 0b111) <<< 12
    let high := (value &&& 0b11111000) <<< 2
    { r with t := (r.t &&& 0b0000110000011111) ||| low ||| high, w := !r.w }
  else
    { r with t := (r.t &&& 0b1111111111100000) ||| ((value &&& 0b11111000) >>> 3),
             x := value &&& 0b111, w := !r.w }

/-- `RenderRegister::write_address` (src/src/ppu.rs:215): two-write latch.
Second write (`w = true`) fills the low byte and copies `t` into `v`; first
write fills `t` bits 8–13 from the low six bits of the value and clears bits
14 and up. -/
def RenderRegister.writeAddress (r : RenderRegister) (value : Nat) : RenderRegister :=
  let value := value % 256
  if r.w then
    let t := (r.t &&& 0b1111111100000000) ||| value
    { r with t := t, v := t, w := !r.w }
  else
    { r with t := (r.t &&& 0b0000000011111111) ||| ((value &&& 0b00111111) <<< 8),
             w := !r.w }

/-- `PpuRegisters` (src/src/ppu.rs:71). -/
structure PpuRegisters where
  control : ControlRegister
  mask : MaskRegister
  status : PpuStatus
  render : RenderRegister
  oamAddress : Nat
  readBuffer : Nat
deriving Repr

def PpuRegisters.default : PpuRegisters :=
  ⟨ControlRegister.default, MaskRegister.default, PpuStatus.default,
   RenderRegister.default, 0, 0⟩

/-- `PpuMemory` (src/src/ppu.rs:84): OAM as a 64-sprite table, four 0x400-byte
nametables and the palette; borrows the ROM for CHR reads. -/
structure PpuMemory where
  rom : Rom
  oam : Nat → Sprite
  names : Nat → Nat → Nat
  palette : PaletteMemory

/-- `PpuMemory::read` (src/src/ppu.rs:312).  CHR reads index `rom.chr_rom`
directly, so an address at or past `chr_rom.len()` panics (`none`). -/
def PpuMemory.read (m : PpuMemory) (address : Nat) : Option (Except PpuMemoryError Nat) :=
  if address ≤ 0x1FFF then
    if address < m.rom.chrLen then some (.ok (m.rom.chr address)) else none
  else if address ≤ 0x3EFF then
    let base := address - 0x2000
    some (.ok (m.names ((base / 0x400) % 4) (base % 0x400)))
  else if 0x3F00 ≤ address ∧ address ≤ 0x3FFF then
    m.palette.get (address - 0x3F00)
  else some (.error (.unmappedRead address))

/-- `PpuMemory::write` (src/src/ppu.rs:327). -/
def PpuMemory.write (m : PpuMemory) (address value : Nat) : Except PpuMemoryError PpuMemory :=
  if 0x2000 ≤ address ∧ address ≤ 0x3EFF then
    let base := address - 0x2000
    let page := (base / 0x400) % 4
    let index := base % 0x400
    .ok { m with names := fun pg ix =>
      if pg = page ∧ ix = index then value else m.names pg ix }
  else if 0x3F00 ≤ address ∧ address ≤ 0x3FFF then
    (m.palette.set (address - 0x3F00) value).map fun p => { m with palette := p }
  else .error (.unmappedWrite address)

/-- `PpuMemory::new` (src/src/ppu.rs:343). -/
def PpuMemory.new (rom : Rom) : PpuMemory :=
  ⟨rom, fun _ => Sprite.default, fun _ _ => 0, PaletteMemory.default⟩

/-- `Ppu` (src/src/ppu.rs:92). -/
structure Ppu where
  registers : PpuRegisters
  memory : PpuMemory

/-- `Ppu::write_ctrl` (src/src/ppu.rs:355). -/
def Ppu.writeCtrl (p : Ppu) (value : Nat) : Ppu :=
  { p with registers := { p.registers with
      control := ControlRegister.fromBits value,
      render := p.registers.render.writeControl value } }

/-- `Ppu::write_mask` (src/src/ppu.rs:361). -/
def Ppu.writeMask (p : Ppu) (value : Nat) : Ppu :=
  { p with registers := { p.registers with mask := MaskRegister.fromBits value } }

/-- `Ppu::read_status` (src/src/ppu.rs:365): resets the `w` latch and returns
the status bits.  It does not touch `v_blank_hit`. -/
def Ppu.readStatus (p : Ppu) : Nat × Ppu :=
  (p.registers.status.bits,
   { p with registers := { p.registers with render := p.registers.render.readStatus } })

/-- `Ppu::write_oam_address` (src/src/ppu.rs:371). -/
def Ppu.writeOamAddress (p : Ppu) (value : Nat) : Ppu :=
  { p with registers := { p.registers with oamAddress := value } }

/-- `Ppu::read_oam_data` (src/src/ppu.rs:375). -/
def Ppu.readOamData (p : Ppu) : Option Nat :=
  (p.memory.oam ((p.registers.oamAddress % 256) / 4)).get ((p.registers.oamAddress % 256) % 4)

/-- `Ppu::write_oam_data` (src/src/ppu.rs:382). -/
def Ppu.writeOamData (p : Ppu) (value : Nat) : Option Ppu :=
  let sprite := (p.registers.oamAddress % 256) / 4
  let index := (p.registers.oamAddress % 256) % 4
  ((p.memory.oam sprite).put index value).map fun s =>
    { p with memory := { p.memory with oam := fun i =>
        if i = sprite then s else p.memory.oam i } }

/-- `Ppu::write_scroll` (src/src/ppu.rs:389). -/
def Ppu.writeScroll (p : Ppu) (value : Nat) : Ppu :=
  { p with registers := { p.registers with render := p.registers.render.writeScroll value } }

/-- `Ppu::write_address` (src/src/ppu.rs:393). -/
def Ppu.writeAddress (p : Ppu) (value : Nat) : Ppu :=
  { p with registers := { p.registers with render := p.registers.render.writeAddress value } }

/-- `Ppu::write_data` (src/src/ppu.rs:397): writes the PPU bus at `v` then
increments `v` by 32 or 1 (u16 wrap). -/
def Ppu.writeData (p : Ppu) (value : Nat) : Except PpuMemoryError Ppu :=
  (p.memory.write p.registers.render.v value).map fun m =>
    let inc := if p.registers.control.increment32 then 32 else 1
    { p with memory := m,
             registers := { p.registers with render :=
               { p.registers.render with v := (p.registers.render.v + inc) % 0x10000 } } }

/-- `Ppu::read_data` (src/src/ppu.rs:409): returns the stale `read_buffer`,
refills the buffer from the PPU bus at `v`, then increments `v`.  A panic in
`PpuMemory::read` (notably the palette underflow) propagates as `none`. -/
def Ppu.readData (p : Ppu) : Option (Except PpuMemoryError (Nat × Ppu)) :=
  match p.memory.read p.registers.render.v with
  | none => none
  | some (.error e) => some (.error e)
  | some (.ok value) =>
    let inc := if p.registers.control.increment32 then 32 else 1
    let render := { p.registers.render with v := (p.registers.render.v + inc) % 0x10000 }
    some (.ok (p.registers.readBuffer,
      { p with registers := { p.registers with readBuffer := value, render := render } }))

/-- `Ppu::replace_oam` (src/src/ppu.rs:423): rebuilds the 64 sprites from a
256-byte block, in order y, tile number, attributes, x. -/
def Ppu.replaceOam (p : Ppu) (data : Nat → Nat) : Ppu :=
  { p with memory := { p.memory with oam := fun i =>
      ⟨data (i * 4), data (i * 4 + 1), data (i * 4 + 2), data (i * 4 + 3)⟩ } }

/-- `Ppu::new` (src/src/ppu.rs:434). -/
def Ppu.new (rom : Rom) : Ppu :=
  ⟨PpuRegisters.default, PpuMemory.new rom⟩

/-! ## Memory bus (src/src/memory.rs)

The CPU bus.  The theorems below instantiate the controller type parameters
with `NoController` (src/src/controller.rs: `read()` always returns 0 and has
no state), so the controller pair carries no data here.  `controller_cycles`
is the `(u64, u64)` field consumed by the snapshot code (src/src/state.rs:328,
350); the bus operations themselves never touch it. -/

/-- `MemoryError` from src/src/memory.rs. -/
inductive MemoryError where
  | unmappedRead (address : Nat)
  | unmappedWrite (address : Nat)
  | ppuError (e : PpuMemoryError)
deriving DecidableEq, Repr

/-- `Memory<NoController, NoController>` (src/src/memory.rs:24). -/
structure Memory where
  cycles : Nat
  ram : Nat → Nat
  rom : Rom
  ppu : Ppu
  saved : Nat → Nat
  controllerCycles : Nat × Nat

/-- `Memory::cycle` (src/src/memory.rs:55). -/
def Memory.cycle (m : Memory) : Memory :=
  { m with cycles := m.cycles + 1 }

/-- `Memory::cycle_many` (src/src/memory.rs:59). -/
def Memory.cycleMany (m : Memory) (times : Nat) : Memory :=
  { m with cycles := m.cycles + times }

/-- `Memory::pass_get` (src/src/memory.rs:81).  Match arms in source order;
only the exact register addresses `$2002/$2004/$2007` are decoded — there is
no `$2008–$3FFF` mirroring arm, so those addresses fall through to
`UnmappedRead`.  PRG reads reduce the offset modulo `prg_rom.len()`; with an
empty PRG that `%` is a Rust panic (`none`). -/
def Memory.passGet (m : Memory) (address : Nat) : Option (Except MemoryError (Nat × Memory)) :=
  if address ≤ 0x1fff then some (.ok (m.ram (address % 0x800), m))
  else if address = 0x2002 then
    let (value, ppu) := m.ppu.readStatus
    some (.ok (value, { m with ppu := ppu }))
  else if address = 0x2004 then
    match m.ppu.readOamData with
    | none => none
    | some value => some (.ok (value, m))
  else if address = 0x2007 then
    match m.ppu.readData with
    | none => none
    | some (.error e) => some (.error (.ppuError e))
    | some (.ok (value, ppu)) => some (.ok (value, { m with ppu := ppu }))
  else if address = 0x4015 then some (.ok (0, m))
  else if address = 0x4016 then some (.ok (0, m))
  else if address = 0x4017 then some (.ok (0, m))
  else if 0x6000 ≤ address ∧ address ≤ 0x7FFF then
    some (.ok (m.saved (address - 0x6000), m))
  else if 0x8000 ≤ address ∧ address ≤ 0xffff then
    if m.rom.prgLen = 0 then none
    else some (.ok (m.rom.prg ((address - 0x8000) % m.rom.prgLen), m))
  else some (.error (.unmappedRead address))

/-- `Memory::get` (src/src/memory.rs:108): one bus cycle, then `pass_get`. -/
def Memory.get (m : Memory) (address : Nat) : Option (Except MemoryError (Nat × Memory)) :=
  m.cycle.passGet address

/-- One iteration block of the OAM-DMA loop body (src/src/memory.rs:67):
read through the bus, burn one extra cycle, store the byte.  Structural
recursion over the number of remaining bytes; `i` is the running index. -/
def Memory.dmaGo (base : Nat) : Nat → Nat → Memory → (Nat → Nat) →
    Option (Except MemoryError (Memory × (Nat → Nat)))
  | _, 0, m, acc => some (.ok (m, acc))
  | i, n + 1, m, acc =>
    match m.get (base + i) with
    | none => none
    | some (.error e) => some (.error e)
    | some (.ok (value, m)) => Memory.dmaGo base (i + 1) n m.cycle (upd acc i value)

/-- `Memory::oam_dma` (src/src/memory.rs:63): 256 bus reads (two cycles each)
into a local buffer, then `replace_oam` and one wait cycle. -/
def Memory.oamDma (m : Memory) (page : Nat) : Option (Except MemoryError Memory) :=
  let base := (page % 256) <<< 8
  match Memory.dmaGo base 0 256 m (fun _ => 0) with
  | none => none
  | some (.error e) => some (.error e)
  | some (.ok (m, oam)) =>
    some (.ok { (m.cycle) with ppu := m.ppu.replaceOam oam })

/-- `Memory::pass_set` (src/src/memory.rs:114): match arms in source order;
as with reads there is no mirroring arm for `$2008–$3FFF`. -/
def Memory.passSet (m : Memory) (address value : Nat) : Option (Except MemoryError Memory) :=
  if address ≤ 0x1fff then
    some (.ok { m with ram := upd m.ram (address % 0x800) value })
  else if address = 0x2000 then some (.ok { m with ppu := m.ppu.writeCtrl value })
  else if address = 0x2001 then some (.ok { m with ppu := m.ppu.writeMask value })
  else if address = 0x2003 then some (.ok { m with ppu := m.ppu.writeOamAddress value })
  else if address = 0x2004 then
    match m.ppu.writeOamData value with
    | none => none
    | some ppu => some (.ok { m with ppu := ppu })
  else if address = 0x2005 then some (.ok { m with ppu := m.ppu.writeScroll value })
  else if address = 0x2006 then some (.ok { m with ppu := m.ppu.writeAddress value })
  else if address = 0x2007 then
    match m.ppu.writeData value with
    | .error e => some (.error (.ppuError e))
    | .ok ppu => some (.ok { m with ppu := ppu })
  else if 0x4000 ≤ address ∧ address ≤ 0x4013 then some (.ok m)
  else if address = 0x4014 then m.oamDma value
  else if address = 0x4015 then some (.ok m)
  else if address = 0x4016 then some (.ok m)
  else if address = 0x4017 then some (.ok m)
  else if 0x6000 ≤ address ∧ address ≤ 0x7FFF then
    some (.ok { m with saved := upd m.saved (address - 0x6000) value })
  else some (.error (.unmappedWrite address))

/-- `Memory::set` (src/src/memory.rs:144): one bus cycle, then `pass_set`. -/
def Memory.set (m : Memory) (address value : Nat) : Option (Except MemoryError Memory) :=
  m.cycle.passSet address value

/-- `Memory::get_short` (src/src/memory.rs:150): little-endian 16-bit read,
second byte at `address.wrapping_add(1)`. -/
def Memory.getShort (m : Memory) (address : Nat) : Option (Except MemoryError (Nat × Memory)) :=
  match m.get (address % 0x10000) with
  | none => none
  | some (.error e) => some (.error e)
  | some (.ok (low, m)) =>
    match m.get ((address + 1) % 0x10000) with
    | none => none
    | some (.error e) => some (.error e)
    | some (.ok (high, m)) => some (.ok ((high <<< 8) ||| low, m))

/-- `Memory::new` (src/src/memory.rs:167).  The `controller_cycles` field is
absent from the constructor in src/src/memory.rs; state.rs requires it, so it
starts at `(0, 0)` here. -/
def Memory.new (rom : Rom) : Memory :=
  ⟨0, fun _ => 0, rom, Ppu.new rom, fun _ => 0, (0, 0)⟩

/-! ## CPU (src/src/cpu.rs, src/src/interpreter.rs) -/

/-- `StatusRegister` bit constants (src/src/cpu.rs). -/
def StatusRegister.CARRY : Nat := 0b00000001

def StatusRegister.ZERO : Nat := 0b00000010

def StatusRegister.INTERUPT : Nat := 0b00000100

def StatusRegister.DECIMAL : Nat := 0b00001000

def StatusRegister.BREAK : Nat := 0b00010000

def StatusRegister.ENABLED : Nat := 0b00100000

def StatusRegister.OVERFLOW : Nat := 0b01000000

def StatusRegister.NEGATIVE : Nat := 0b10000000

/-- `Registers` (src/src/cpu.rs): `p` is the status byte. -/
structure Registers where
  pc : Nat
  a : Nat
  x : Nat
  y : Nat
  p : Nat
  sp : Nat
deriving DecidableEq, Repr

/-- `Registers::new` (src/src/cpu.rs): `p = ENABLED | INTERUPT`, `sp = 0xFD`. -/
def Registers.new (pc : Nat) : Registers :=
  ⟨pc, 0, 0, 0, StatusRegister.ENABLED ||| StatusRegister.INTERUPT, 0xFD⟩

/-- `Vectors` (src/src/cpu.rs). -/
structure Vectors where
  nmi : Nat
  reset : Nat
  interrupt : Nat
deriving DecidableEq, Repr

/-- `Vectors::new` (src/src/cpu.rs): three `get_short` reads with
`unwrap_or(0x8000)`.  For every memory state the addresses
`0xFFFA..=0xFFFF` decode to the PRG-ROM arm, which returns `Ok` whenever
`prg_rom` is non-empty and panics otherwise, so the `Err` fallback of
`unwrap_or` is unreachable; it is mapped to `none` here. -/
def Vectors.new (m : Memory) : Option (Vectors × Memory) :=
  match m.getShort 0xFFFA with
  | some (.ok (nmi, m)) =>
    match m.getShort 0xFFFC with
    | some (.ok (reset, m)) =>
      match m.getShort 0xFFFE with
      | some (.ok (intr, m)) => some (⟨nmi, reset, intr⟩, m)
      | _ => none
    | _ => none
  | _ => none

/-- `Cpu` (src/src/cpu.rs), with both controllers `NoController`. -/
structure Cpu where
  vectors : Vectors
  registers : Registers
  memory : Memory

/-- `Cpu::new` (src/src/cpu.rs): one initial bus cycle, read the vectors,
then reset the registers at `pc.unwrap_or(vectors.reset)`. -/
def Cpu.new (rom : Rom) (pc : Option Nat) : Option Cpu :=
  let m := (Memory.new rom).cycle
  match Vectors.new m with
  | none => none
  | some (vectors, m) =>
    some ⟨vectors, Registers.new (pc.getD vectors.reset), m⟩

/-- `Cpu::push` (src/src/interpreter.rs:114): store at
`STACK_START + sp as u16` (the `u8` stack pointer zero-extended), then
`sp.wrapping_sub(1)`. -/
def Cpu.push (c : Cpu) (value : Nat) : Option (Except MemoryError Cpu) :=
  match c.memory.set (0x100 + c.registers.sp % 256) value with
  | none => none
  | some (.error e) => some (.error e)
  | some (.ok m) =>
    let registers := { c.registers with sp := (c.registers.sp % 256 + 255) % 256 }
    some (.ok { c with memory := m, registers := registers })

/-- `Cpu::push_address` (src/src/interpreter.rs:122): high byte first. -/
def Cpu.pushAddress (c : Cpu) (address : Nat) : Option (Except MemoryError Cpu) :=
  match c.push ((address % 0x10000) >>> 8) with
  | none => none
  | some (.error e) => some (.error e)
  | some (.ok c) => c.push (address &&& 0xFF)

/-- `Cpu::interrupt` (src/src/interpreter.rs:140): push PC (high, low), then
the status byte with `ENABLED` and `BREAK` both or-ed in, then jump. -/
def Cpu.interrupt (c : Cpu) (pc : Nat) : Option (Except MemoryError Cpu) :=
  match c.pushAddress c.registers.pc with
  | none => none
  | some (.error e) => some (.error e)
  | some (.ok c) =>
    let status := c.registers.p % 256 ||| StatusRegister.ENABLED ||| StatusRegister.BREAK
    match c.push status with
    | none => none
    | some (.error e) => some (.error e)
    | some (.ok c) =>
      some (.ok { c with registers := { c.registers with pc := pc % 0x10000 } })

/-- `Cpu::set_flags` (src/src/interpreter.rs:154) on the status byte:
`Z := value == 0`, `N := value bit 7`. -/
def setFlags (p value : Nat) : Nat :=
  flagSet (flagSet p StatusRegister.ZERO (value % 256 = 0))
    StatusRegister.NEGATIVE (value &&& 0b10000000 ≠ 0)

/-- `Cpu::add` (src/src/interpreter.rs:159) as a function of the status byte
and the two operand bytes; returns the sum byte and the new status byte.
Carry and overflow are detected with `checked_add` in two steps exactly as in
the source: first on `a + b` (unsigned / signed), then — when the incoming
carry is set — on `result + 1`. -/
def cpuAdd (p a b : Nat) : Nat × Nat :=
  let a := a % 256
  let b := b % 256
  let result0 := (a + b) % 256
  let hasCarry0 := decide (255 < a + b)
  let hasOverflow0 :=
    decide (toSigned a + toSigned b < -128 ∨ 127 < toSigned a + toSigned b)
  let carryIn := flagContains p StatusRegister.CARRY
  let result := if carryIn then (result0 + 1) % 256 else result0
  let hasCarry := hasCarry0 || (carryIn && decide (result0 = 0xFF))
  let hasOverflow := hasOverflow0 || (carryIn && decide (result0 = 0x7F))
  let p := setFlags p result
  let p := flagSet p StatusRegister.CARRY hasCarry
  let p := flagSet p StatusRegister.OVERFLOW hasOverflow
  (result, p)

/-- The signed-overflow formula the specification states for ADC:
`V = ((a ^ r) & (m ^ r) & 0x80) != 0`.  Written from the spec, for
comparison against `cpuAdd`. -/
def specAdcOverflow (a m r : Nat) : Bool :=
  (a ^^^ r) &&& (m ^^^ r) &&& 0x80 ≠ 0

/-- `Cpu::php` (src/src/interpreter.rs:461): push `p | ENABLED | BREAK`,
then one extra cycle. -/
def Cpu.php (c : Cpu) : Option (Except MemoryError Cpu) :=
  let status := c.registers.p % 256 ||| StatusRegister.ENABLED ||| StatusRegister.BREAK
  match c.push status with
  | none => none
  | some (.error e) => some (.error e)
  | some (.ok c) => some (.ok { c with memory := c.memory.cycle })

/-- The `next` closure of `Cpu::step` (src/src/interpreter.rs:1566): one bus
read at `pc`, then `pc += 1`.  The source converts a read error to `None`
with `.ok()`; both that and a bus panic collapse to `none` here. -/
def Cpu.next (c : Cpu) : Option (Nat × Cpu) :=
  match c.memory.get (c.registers.pc % 0x10000) with
  | some (.ok (value, m)) =>
    let registers := { c.registers with pc := (c.registers.pc + 1) % 0x10000 }
    some (value, { c with memory := m, registers := registers })
  | _ => none

/-- `CpuError` (src/src/interpreter.rs). -/
inductive CpuError where
  | invalidOp (op : Nat)
  | memory (e : MemoryError)
  | break_hit
  | stop
deriving DecidableEq, Repr

/-- `Cpu::step` (src/src/interpreter.rs:1566) restricted to the decoder arms
the theorems below execute (src/src/decoder.rs:355, 383, 387): opcode `0xA9`
dispatches to `lda_i` (src/src/interpreter.rs:1199), `0x8D` to `sta_a`
(src/src/interpreter.rs:1123), `0xAD` to `lda_a`
(src/src/interpreter.rs:1223).  Every fetch goes through `Cpu.next`.  Any
other opcode is outside the modelled fragment and yields `none` (it is not
mapped to `InvalidOp`: the fragment never misreports, it only refuses). -/
def Cpu.stepFragment (c : Cpu) : Option (Except CpuError Cpu) :=
  match c.next with
  | none => none
  | some (op, c) =>
    if op = 0xA9 then
      match c.next with
      | none => none
      | some (value, c) =>
        let a := value
        some (.ok { c with registers :=
          { c.registers with a := a, p := setFlags c.registers.p a } })
    else if op = 0x8D then
      match c.next with
      | none => none
      | some (low, c) =>
        match c.next with
        | none => none
        | some (high, c) =>
          let address := (high <<< 8) ||| low
          match c.memory.set address c.registers.a with
          | none => none
          | some (.error e) => some (.error (.memory e))
          | some (.ok m) => some (.ok { c with memory := m })
    else if op = 0xAD then
      match c.next with
      | none => none
      | some (low, c) =>
        match c.next with
        | none => none
        | some (high, c) =>
          let address := (high <<< 8) ||| low
          match c.memory.get address with
          | none => none
          | some (.error e) => some (.error (.memory e))
          | some (.ok (value, m)) =>
            some (.ok { c with memory := m, registers :=
              { c.registers with a := value, p := setFlags c.registers.p value } })
    else none

/-! ## Snapshots (src/src/state.rs)

The snapshot types mirror the live types field for field; the `From`
conversions below copy each field exactly as the source does.  `Vec` fields
whose length is fixed by construction (`ram`: 0x800, `oam`: 64, `names`:
4 × 0x400) are byte functions here, so the `try_into` length checks of
`restore` — which always succeed on snapshots produced by `From<&Cpu>` —
have no residue in the model. -/

/-- `state::CpuRegisters` (src/src/state.rs:9). -/
structure CpuStateRegisters where
  pc : Nat
  a : Nat
  x : Nat
  y : Nat
  p : Nat
  sp : Nat
deriving DecidableEq, Repr

/-- `From<&Registers> for CpuRegisters` (src/src/state.rs:105); `p` is stored
via `bits()`, the raw status byte. -/
def CpuStateRegisters.ofRegisters (value : Registers) : CpuStateRegisters :=
  ⟨value.pc, value.a, value.x, value.y, value.p, value.sp⟩

/-- `From<&CpuRegisters> for Registers` (src/src/state.rs:118); `p` is
rebuilt with `from_bits_retain`, which keeps every bit. -/
def CpuStateRegisters.toRegisters (value : CpuStateRegisters) : Registers :=
  ⟨value.pc, value.a, value.x, value.y, value.p, value.sp⟩

/-- `PpuStateSprite` (src/src/state.rs:19). -/
structure PpuStateSprite where
  y : Nat
  number : Nat
  mask : Nat
  x : Nat
deriving DecidableEq, Repr

/-- `From<&Sprite> for PpuStateSprite` (src/src/state.rs:265). -/
def PpuStateSprite.ofSprite (value : Sprite) : PpuStateSprite :=
  ⟨value.y, value.number, value.mask, value.x⟩

/-- `From<&PpuStateSprite> for Sprite` (src/src/state.rs:254). -/
def PpuStateSprite.toSprite (value : PpuStateSprite) : Sprite :=
  ⟨value.y, value.number, value.mask, value.x⟩

/-- `PpuStateControlRegister` (src/src/state.rs:27). -/
structure PpuStateControlRegister where
  increment32 : Bool
  baseSpritePatternTable : Bool
  baseBackgroundPatternTable : Bool
  spriteSize : Bool
  ppuColorExt : Bool
  genNmi : Bool
deriving DecidableEq, Repr

/-- `From<&ControlRegister>` (src/src/state.rs:144). -/
def PpuStateControlRegister.ofControl (v : ControlRegister) : PpuStateControlRegister :=
  ⟨v.increment32, v.baseSpritePatternTable, v.baseBackgroundPatternTable,
   v.spriteSize, v.ppuColorExt, v.genNmi⟩

/-- `From<&PpuStateControlRegister>` (src/src/state.rs:131). -/
def PpuStateControlRegister.toControl (v : PpuStateControlRegister) : ControlRegister :=
  ⟨v.increment32, v.baseSpritePatternTable, v.baseBackgroundPatternTable,
   v.spriteSize, v.ppuColorExt, v.genNmi⟩

/-- `PpuStateMaskRegister` (src/src/state.rs:37). -/
structure PpuStateMaskRegister where
  greyscale : Bool
  showBackgroundLeftmost : Bool
  showSpritesLeftmost : Bool
  showBackground : Bool
  showSprites : Bool
  emphasizeRed : Bool
  emphasizeGreen : Bool
  emphasizeBlue : Bool
deriving DecidableEq, Repr

/-- `From<&MaskRegister>` (src/src/state.rs:172). -/
def PpuStateMaskRegister.ofMask (v : MaskRegister) : PpuStateMaskRegister :=
  ⟨v.greyscale, v.showBackgroundLeftmost, v.showSpritesLeftmost, v.showBackground,
   v.showSprites, v.emphasizeRed, v.emphasizeGreen, v.emphasizeBlue⟩

/-- `From<&PpuStateMaskRegister>` (src/src/state.rs:157). -/
def PpuStateMaskRegister.toMask (v : PpuStateMaskRegister) : MaskRegister :=
  ⟨v.greyscale, v.showBackgroundLeftmost, v.showSpritesLeftmost, v.showBackground,
   v.showSprites, v.emphasizeRed, v.emphasizeGreen, v.emphasizeBlue⟩

/-- `PpuStateStatusRegister` (src/src/state.rs:49). -/
structure PpuStateStatusRegister where
  spriteHit : Bool
  vBlankHit : Bool
deriving DecidableEq, Repr

/-- `From<&PpuStatusRegister>` (src/src/state.rs:187). -/
def PpuStateStatusRegister.ofStatus (v : PpuStatus) : PpuStateStatusRegister :=
  ⟨v.spriteHit, v.vBlankHit⟩

/-- `From<&PpuStateStatusRegister>` (src/src/state.rs:197). -/
def PpuStateStatusRegister.toStatus (v : PpuStateStatusRegister) : PpuStatus :=
  ⟨v.spriteHit, v.vBlankHit⟩

/-- `PpuStateRenderRegister` (src/src/state.rs:55). -/
structure PpuStateRenderRegister where
  t : Nat
  v : Nat
  x : Nat
  w : Bool
deriving DecidableEq, Repr

/-- `From<&RenderRegister>` (src/src/state.rs:217). -/
def PpuStateRenderRegister.ofRender (r : RenderRegister) : PpuStateRenderRegister :=
  ⟨r.t, r.v, r.x, r.w⟩

/-- `From<&PpuStateRenderRegister>` (src/src/state.rs:206). -/
def PpuStateRenderRegister.toRender (r : PpuStateRenderRegister) : RenderRegister :=
  ⟨r.t, r.v, r.x, r.w⟩

/-- `PpuStateRegisters` (src/src/state.rs:63). -/
structure PpuStateRegisters where
  control : PpuStateControlRegister
  mask : PpuStateMaskRegister
  status : PpuStateStatusRegister
  render : PpuStateRenderRegister
  oamAddress : Nat
  readBuffer : Nat
deriving DecidableEq, Repr

/-- `From<&PpuRegisters>` (src/src/state.rs:228). -/
def PpuStateRegisters.ofRegisters (v : PpuRegisters) : PpuStateRegisters :=
  ⟨PpuStateControlRegister.ofControl v.control, PpuStateMaskRegister.ofMask v.mask,
   PpuStateStatusRegister.ofStatus v.status, PpuStateRenderRegister.ofRender v.render,
   v.oamAddress, v.readBuffer⟩

/-- `From<&PpuStateRegisters>` (src/src/state.rs:241). -/
def PpuStateRegisters.toRegisters (v : PpuStateRegisters) : PpuRegisters :=
  ⟨v.control.toControl, v.mask.toMask, v.status.toStatus, v.render.toRender,
   v.oamAddress, v.readBuffer⟩

/-- `PpuStatePaletteMemory` (src/src/state.rs:78). -/
structure PpuStatePaletteMemory where
  backgroundSolid : Nat
  background : Nat → Nat → Nat
  sprite : Nat → Nat → Nat

/-- `From<&PaletteMemory>` (src/src/state.rs:286). -/
def PpuStatePaletteMemory.ofPalette (v : PaletteMemory) : PpuStatePaletteMemory :=
  ⟨v.backgroundSolid, v.background, v.sprite⟩

/-- `From<&PpuStatePaletteMemory>` (src/src/state.rs:276). -/
def PpuStatePaletteMemory.toPalette (v : PpuStatePaletteMemory) : PaletteMemory :=
  ⟨v.backgroundSolid, v.background, v.sprite⟩

/-- `PpuStateMemory` (src/src/state.rs:85). -/
structure PpuStateMemory where
  oam : Nat → PpuStateSprite
  names : Nat → Nat → Nat
  palette : PpuStatePaletteMemory

/-- `From<&PpuMemory>` (src/src/state.rs:310). -/
def PpuStateMemory.ofMemory (v : PpuMemory) : PpuStateMemory :=
  ⟨fun i => PpuStateSprite.ofSprite (v.oam i), v.names,
   PpuStatePaletteMemory.ofPalette v.palette⟩

/-- `PpuStateMemory::restore` (src/src/state.rs:296): rebuilds `PpuMemory`
against the given ROM. -/
def PpuStateMemory.restore (self : PpuStateMemory) (rom : Rom) : PpuMemory :=
  ⟨rom, fun i => (self.oam i).toSprite, self.names, self.palette.toPalette⟩

/-- `PpuState` (src/src/state.rs:92). -/
structure PpuState where
  registers : PpuStateRegisters
  memory : PpuStateMemory

/-- `CpuState` (src/src/state.rs:98): the snapshot payload. -/
structure CpuState where
  ram : Nat → Nat
  controllerCycles : Nat × Nat
  registers : CpuStateRegisters
  ppu : PpuState

/-- `From<&Cpu> for CpuState` (src/src/state.rs:324): the snapshot.  Note
that `memory.cycles`, `memory.saved` and the CPU vectors are not captured. -/
def CpuState.ofCpu (value : Cpu) : CpuState :=
  ⟨value.memory.ram, value.memory.controllerCycles,
   CpuStateRegisters.ofRegisters value.registers,
   ⟨PpuStateRegisters.ofRegisters value.memory.ppu.registers,
    PpuStateMemory.ofMemory value.memory.ppu.memory⟩⟩

/-- `CpuState::restore` (src/src/state.rs:339): rebuilds a `Memory` with
`cycles = 0` and `saved` zeroed, re-reads the vectors (six bus reads, which
panic when `prg_rom` is empty — hence `Option`), and restores the registers. -/
def CpuState.restore (self : CpuState) (rom : Rom) : Option Cpu :=
  let memory : Memory :=
    ⟨0, self.ram, rom,
     ⟨self.ppu.registers.toRegisters, self.ppu.memory.restore rom⟩,
     fun _ => 0, self.controllerCycles⟩
  match Vectors.new memory with
  | none => none
  | some (vectors, memory) =>
    some ⟨vectors, self.registers.toRegisters, memory⟩

/-! ## Scanline renderer (src/src/software.rs)

Register-level projection of the per-dot loop of `SoftwareRenderer::render`
(src/src/software.rs:266–321).  The per-dot body touches, besides the frame
buffer and the pre-rendered-scanline cache, exactly these cells: on visible
scanlines at `scan_x == 0` the sprite pre-pass may set
`ppu.registers.status.sprite_hit` (it only ever sets it, for a
non-transparent sprite-0 pixel); at `(scan_y, scan_x) = (241, 1)` the local
`has_v_blank` is latched; at `(261, 1)` `sprite_hit` is cleared.  The data
dependence of the sprite pre-pass on OAM/CHR/palette contents is abstracted
by the oracle `hit : Nat → Bool` (whether the pre-pass at scanline `y`
produces a non-transparent sprite-0 pixel); those tables are not written
during the loop, so the oracle is stable across the call.  Pixel output and
panics of the pixel pipeline on degenerate CHR/palette data are outside this
projection.  `ppu.registers.status.v_blank_hit` is never assigned anywhere
in the loop. -/

/-- The renderer registers the dot loop reads or writes. -/
structure RenderScan where
  scanX : Nat
  scanY : Nat
  spriteHit : Bool
  vBlank : Bool
  hasVBlank : Bool
deriving DecidableEq, Repr

/-- One dot of `SoftwareRenderer::render`: the `match self.scan_y` body, then
the `scan_x`/`scan_y` advance with wrap at 341 and 262. -/
def renderDot (hit : Nat → Bool) (s : RenderScan) : RenderScan :=
  let s :=
    if s.scanY ≤ 239 then
      if s.scanX = 0 then { s with spriteHit := s.spriteHit || hit s.scanY } else s
    else if s.scanY = 241 then
      if s.scanX = 1 then { s with hasVBlank := true } else s
    else if s.scanY = 261 then
      if s.scanX = 1 then { s with spriteHit := false } else s
    else s
  let x := s.scanX + 1
  if 341 ≤ x then
    let y := s.scanY + 1
    { s with scanX := 0, scanY := if 262 ≤ y then 0 else y }
  else { s with scanX := x }

/-- `n` dots of the render loop. -/
def renderDots (hit : Nat → Bool) (n : Nat) (s : RenderScan) : RenderScan :=
  match n with
  | 0 => s
  | n + 1 => renderDots hit n (renderDot hit s)

/-! ## Helper definitions for the theorems -/

/-- Extract the success payload of a bus read. -/
def okRead (r : Option (Except MemoryError (Nat × Memory))) : Option Nat :=
  match r with
  | some (.ok (value, _)) => some value
  | _ => none

/-- Extract the post-state of a successful bus write. -/
def okWrite (r : Option (Except MemoryError Memory)) : Option Memory :=
  match r with
  | some (.ok m) => some m
  | _ => none

/-- Extract the post-state of a successful CPU memory operation. -/
def okCpu (r : Option (Except MemoryError Cpu)) : Option Cpu :=
  match r with
  | some (.ok c) => some c
  | _ => none

/-- Chain one modelled `Cpu::step` onto an optional CPU state. -/
def stepOk (c : Option Cpu) : Option Cpu :=
  match c with
  | none => none
  | some c =>
    match c.stepFragment with
    | some (.ok c) => some c
    | _ => none

/-- A trivial ROM (both banks empty); enough for the PPU/bus register
theorems, which never touch ROM contents. -/
def rom0 : Rom := ⟨fun _ => 0, 0, fun _ => 0, 0⟩

/-- A fresh bus over the trivial ROM. -/
def mem0 : Memory := Memory.new rom0

/-- A fresh PPU over the trivial ROM (`v_blank_hit` starts true). -/
def ppu0 : Ppu := Ppu.new rom0

/-- A PPU whose data-port address `v` points into `$3F01–$3F0F`. -/
def ppu1 : Ppu :=
  ⟨{ PpuRegisters.default with render := { RenderRegister.default with v := 0x3F04 } },
   PpuMemory.new rom0⟩

/-- A concrete CPU with a clear status byte, for the interrupt theorems. -/
def cpu0 : Cpu :=
  ⟨⟨0x8000, 0x8000, 0x8000⟩, ⟨0x8123, 0x11, 0, 0, 0, 0xFD⟩, mem0⟩

/-- PRG image of the snapshot round-trip scenario: `LDA #$42; STA $6000;
LDA #$00; LDA $6000` at `$8000`, reset vector `$8000` at offset `$3FFC`. -/
def progA : Nat → Nat := fun i =>
  if i = 0 then 0xA9
  else if i = 1 then 0x42
  else if i = 2 then 0x8D
  else if i = 3 then 0x00
  else if i = 4 then 0x60
  else if i = 5 then 0xA9
  else if i = 6 then 0x00
  else if i = 7 then 0xAD
  else if i = 8 then 0x00
  else if i = 9 then 0x60
  else if i = 0x3FFC then 0x00
  else if i = 0x3FFD then 0x80
  else 0

/-- A 16 KiB NROM cartridge holding `progA`. -/
def romA : Rom := ⟨progA, 0x4000, fun _ => 0, 0⟩

/-- The state reached from reset after `LDA #$42; STA $6000; LDA #$00`:
`a = 0`, save RAM byte 0 holds `0x42`. -/
def cpuA3 : Option Cpu := stepOk (stepOk (stepOk (Cpu.new romA none)))

/-- `cpuA3` after a snapshot/restore round trip against the same ROM
(restore zeroes `saved` and the cycle counter). -/
def cpuA3r : Option Cpu :=
  match cpuA3 with
  | none => none
  | some c => (CpuState.ofCpu c).restore romA

/-- A concrete CPU for the snapshot round-trip witness. -/
def cpuA : Cpu := ⟨⟨0x8000, 0x8000, 0x8000⟩, Registers.new 0x8000, Memory.new romA⟩

/-- The 256 bytes OAM-DMA reads from RAM page `p`: byte `j` is
`ram[(p*256 + j) mod 0x800]` (zero beyond the buffer). -/
def dmaBytes (m : Memory) (p : Nat) : Nat → Nat :=
  fun j => if j < 256 then m.ram ((p * 256 + j) % 0x800) else 0

/-- Pure scan-counter step of the renderer dot loop: `scan_x += 1`, wrap at
341 into `scan_y += 1`, wrap at 262. -/
def scanStep (s : Nat × Nat) : Nat × Nat :=
  if 341 ≤ s.1 + 1 then (0, if 262 ≤ s.2 + 1 then 0 else s.2 + 1) else (s.1 + 1, s.2)

/-- Scan position reached `k` dots after `(0, 0)`: dot index to `(x, y)`. -/
def ofIdx (k : Nat) : Nat × Nat := (k % 341, k / 341)

/-! ## Theorems -/

/-- Masking a byte-sized low part: `n &&& 255 = n % 256`. -/
theorem and255_eq_mod (n : Nat) : n &&& 255 = n % 256 := by
  have h := Nat.and_pow_two_sub_one_eq_mod n 8
  norm_num at h
  exact h

/-- C1 (counterexample): on a fresh PPU — whose `v_blank_hit` starts true —
`Ppu::read_status` returns the status bits and leaves `v_blank_hit` still
true afterwards, so a `$2002` read does not clear the vblank flag as the
claim states. -/
theorem claim_C1_counterexample :
    ppu0.registers.status.vBlankHit = true ∧
    (Ppu.readStatus ppu0).1 = 0x80 ∧
    (Ppu.readStatus ppu0).2.registers.status.vBlankHit = true :=
  ⟨rfl, rfl, rfl⟩

/-- C1 (amended): for every PPU state, a `$2002` read returns
`sprite_zero_hit` in bit 6 and `vblank` in bit 7, resets the write latch `w`
to false, and leaves everything else — including the vblank status flag,
which is *not* cleared — unchanged. -/
theorem claim_C1 (p : Ppu) :
    (Ppu.readStatus p).1 =
      (if p.registers.status.spriteHit then 0x40 else 0) +
      (if p.registers.status.vBlankHit then 0x80 else 0) ∧
    (Ppu.readStatus p).2 =
      { p with registers := { p.registers with render := { p.registers.render with w := false } } } := by
  refine ⟨?_, rfl⟩
  cases hsh : p.registers.status.spriteHit <;>
    cases hvb : p.registers.status.vBlankHit <;>
      simp [Ppu.readStatus, PpuStatus.bits, hsh, hvb]

/-- C5 (confirmed): with `t`'s low byte 0 and `w = false`, the `$2006` write
pair `$21`, `$08` leaves `v = 0x2108` and `w = false`; with a `$2002` read
between the two writes the latch is reset, so the second write acts as a
first write: `t` becomes `0x0800` (bits 8–13 from the low six bits of
`$08`, bit 14 clear, low byte preserved), `w` flips to true, and `v` keeps
the value it had after the first write (`t` is not copied into `v`). -/
theorem claim_C5 (p : Ppu)
    (h1 : p.registers.render.t % 256 = 0)
    (h2 : p.registers.render.w = false) :
    ((p.writeAddress 0x21).writeAddress 0x08).registers.render.v = 0x2108 ∧
    ((p.writeAddress 0x21).writeAddress 0x08).registers.render.w = false ∧
    ((p.writeAddress 0x21).readStatus.2.writeAddress 0x08).registers.render.t = 0x0800 ∧
    ((p.writeAddress 0x21).readStatus.2.writeAddress 0x08).registers.render.w = true ∧
    ((p.writeAddress 0x21).readStatus.2.writeAddress 0x08).registers.render.v =
      p.registers.render.v := by
  have hand : p.registers.render.t &&& 255 = 0 := by rw [and255_eq_mod]; exact h1
  have e1 : RenderRegister.writeAddress p.registers.render 0x21 =
      ⟨0x2100, p.registers.render.v, p.registers.render.x, true⟩ := by
    unfold RenderRegister.writeAddress
    rw [h2, hand]
    norm_num
    decide
  have e2 : (RenderRegister.writeAddress p.registers.render 0x21).writeAddress 0x08 =
      ⟨0x2108, 0x2108, p.registers.render.x, false⟩ := by
    rw [e1]
    unfold RenderRegister.writeAddress
    norm_num
    decide
  have e3 : (RenderRegister.writeAddress p.registers.render 0x21).readStatus.writeAddress 0x08 =
      ⟨0x0800, p.registers.render.v, p.registers.render.x, true⟩ := by
    rw [e1]
    unfold RenderRegister.readStatus RenderRegister.writeAddress
    norm_num
    decide
  have q1 : ((p.writeAddress 0x21).writeAddress 0x08).registers.render =
      (RenderRegister.writeAddress p.registers.render 0x21).writeAddress 0x08 := rfl
  have q2 : ((p.writeAddress 0x21).readStatus.2.writeAddress 0x08).registers.render =
      (RenderRegister.writeAddress p.registers.render 0x21).readStatus.writeAddress 0x08 := rfl
  refine ⟨?_, ?_, ?_, ?_, ?_⟩
  · rw [q1, e2]
  · rw [q1, e2]
  · rw [q2, e3]
  · rw [q2, e3]
  · rw [q2, e3]

/-- C5 (witness): the hypotheses and conclusion at the fresh PPU. -/
theorem claim_C5_witness :
    (ppu0.registers.render.t % 256 = 0 ∧ ppu0.registers.render.w = false) ∧
    (((ppu0.writeAddress 0x21).writeAddress 0x08).registers.render.v = 0x2108 ∧
     ((ppu0.writeAddress 0x21).writeAddress 0x08).registers.render.w = false ∧
     ((ppu0.writeAddress 0x21).readStatus.2.writeAddress 0x08).registers.render.t = 0x0800 ∧
     ((ppu0.writeAddress 0x21).readStatus.2.writeAddress 0x08).registers.render.w = true ∧
     ((ppu0.writeAddress 0x21).readStatus.2.writeAddress 0x08).registers.render.v =
       ppu0.registers.render.v) :=
  ⟨⟨by decide, rfl⟩, claim_C5 ppu0 (by decide) rfl⟩

/-- C7 (counterexample): on the default palette, a `$2007`-level write of
`0x2A` at palette offset `0x14` (`$3F14`) is silently dropped (the state is
returned unchanged), and reads at offsets `0x04` (`$3F04`) and `0x14` both
panic (`none`) instead of returning a byte — so the write at `$3F14` is not
observed by a read of `$3F04`, and the pair does not alias symmetrically as
the claim states. -/
theorem claim_C7_counterexample :
    PaletteMemory.set PaletteMemory.default 0x14 0x2A = .ok PaletteMemory.default ∧
    PaletteMemory.set PaletteMemory.default 0x04 0x2A = .ok PaletteMemory.default ∧
    PaletteMemory.get PaletteMemory.default 0x04 = none ∧
    PaletteMemory.get PaletteMemory.default 0x14 = none :=
  ⟨rfl, rfl, rfl, rfl⟩

/-- C7 (amended): only the pair (`$3F10`, `$3F00`) aliases the same storage
(`background_solid`) symmetrically for reads and writes; for the pairs
(`$3F14`, `$3F04`), (`$3F18`, `$3F08`), (`$3F1C`, `$3F0C`) a write to either
address is silently dropped (the palette state is unchanged) and a read of
either address panics (index-3 column / wrapped-subtraction page out of
bounds) rather than returning a byte. -/
theorem claim_C7 (pm : PaletteMemory) (v : Nat) :
    PaletteMemory.set pm 0x00 v = .ok { pm with backgroundSolid := v } ∧
    PaletteMemory.set pm 0x10 v = .ok { pm with backgroundSolid := v } ∧
    PaletteMemory.get pm 0x00 = some (.ok pm.backgroundSolid) ∧
    PaletteMemory.get pm 0x10 = some (.ok pm.backgroundSolid) ∧
    PaletteMemory.set pm 0x04 v = .ok pm ∧ PaletteMemory.set pm 0x14 v = .ok pm ∧
    PaletteMemory.set pm 0x08 v = .ok pm ∧ PaletteMemory.set pm 0x18 v = .ok pm ∧
    PaletteMemory.set pm 0x0C v = .ok pm ∧ PaletteMemory.set pm 0x1C v = .ok pm ∧
    PaletteMemory.get pm 0x04 = none ∧ PaletteMemory.get pm 0x14 = none ∧
    PaletteMemory.get pm 0x08 = none ∧ PaletteMemory.get pm 0x18 = none ∧
    PaletteMemory.get pm 0x0C = none ∧ PaletteMemory.get pm 0x1C = none :=
  ⟨rfl, rfl, rfl, rfl, rfl, rfl, rfl, rfl, rfl, rfl, rfl, rfl, rfl, rfl, rfl, rfl⟩

/-- Palette reads at offsets `0x01–0x0F` and `0x11–0x1F` always panic: the
wrapped `u16` subtraction produces a page index at least `0x3040`, far above
the four palette pages. -/
theorem paletteGet_panics (pm : PaletteMemory) (off : Nat)
    (h : (0x01 ≤ off ∧ off ≤ 0x0F) ∨ (0x11 ≤ off ∧ off ≤ 0x1F)) :
    PaletteMemory.get pm off = none := by
  have hlt : off % 0x20 = off := Nat.mod_eq_of_lt (by omega)
  simp only [PaletteMemory.get, hlt]
  rcases h with ⟨h1, h2⟩ | ⟨h1, h2⟩
  · rw [if_neg (by omega), if_pos (by omega), if_neg (by omega)]
  · rw [if_neg (by omega), if_neg (by omega), if_neg (by omega),
      if_pos (by omega), if_neg (by omega)]

/-- C10 (confirmed): whenever the PPU data-port address `v` lies in
`$3F01–$3F0F` or `$3F11–$3F1F`, `Ppu::read_data` panics (`none`) — by
arithmetic underflow / out-of-bounds palette indexing — instead of
returning a palette byte or a `PpuMemoryError`. -/
theorem claim_C10 (p : Ppu)
    (h : (0x3F01 ≤ p.registers.render.v ∧ p.registers.render.v ≤ 0x3F0F) ∨
         (0x3F11 ≤ p.registers.render.v ∧ p.registers.render.v ≤ 0x3F1F)) :
    Ppu.readData p = none := by
  have hread : p.memory.read p.registers.render.v = none := by
    unfold PpuMemory.read
    rw [if_neg (by omega), if_neg (by omega), if_pos (by omega)]
    exact paletteGet_panics _ _ (by omega)
  unfold Ppu.readData
  rw [hread]

/-- C10 (witness): the hypothesis and conclusion at `v = $3F04`. -/
theorem claim_C10_witness :
    ((0x3F01 ≤ ppu1.registers.render.v ∧ ppu1.registers.render.v ≤ 0x3F0F) ∨
     (0x3F11 ≤ ppu1.registers.render.v ∧ ppu1.registers.render.v ≤ 0x3F1F)) ∧
    Ppu.readData ppu1 = none :=
  ⟨by decide, claim_C10 ppu1 (by decide)⟩

/-- C6 (counterexample): on a fresh bus, the mirror source `$2002` reads
fine (`0x80`), but its claimed mirror `$2012` fails with `UnmappedRead`, and
a write at `$2015` (claimed mirror of `$2005`) fails with `UnmappedWrite` —
so `$2008–$3FFF` does not behave like the mirrored PPU registers. -/
theorem claim_C6_counterexample :
    okRead (mem0.get 0x2002) = some 0x80 ∧
    mem0.get 0x2012 = some (.error (.unmappedRead 0x2012)) ∧
    mem0.set 0x2015 0x33 = some (.error (.unmappedWrite 0x2015)) :=
  ⟨rfl, rfl, rfl⟩

/-- C6 (amended): the bus decode has no mirroring arm for `$2008–$3FFF`:
every read there fails with `UnmappedRead` and every write with
`UnmappedWrite`, for any bus state. -/
theorem claim_C6 (m : Memory) (a v : Nat) (h1 : 0x2008 ≤ a) (h2 : a ≤ 0x3FFF) :
    m.get a = some (.error (.unmappedRead a)) ∧
    m.set a v = some (.error (.unmappedWrite a)) := by
  constructor
  · unfold Memory.get Memory.passGet
    rw [if_neg (show ¬ a ≤ 0x1fff by omega), if_neg (show ¬ a = 0x2002 by omega),
      if_neg (show ¬ a = 0x2004 by omega), if_neg (show ¬ a = 0x2007 by omega),
      if_neg (show ¬ a = 0x4015 by omega), if_neg (show ¬ a = 0x4016 by omega),
      if_neg (show ¬ a = 0x4017 by omega),
      if_neg (show ¬ (0x6000 ≤ a ∧ a ≤ 0x7FFF) by omega),
      if_neg (show ¬ (0x8000 ≤ a ∧ a ≤ 0xffff) by omega)]
  · unfold Memory.set Memory.passSet
    rw [if_neg (show ¬ a ≤ 0x1fff by omega), if_neg (show ¬ a = 0x2000 by omega),
      if_neg (show ¬ a = 0x2001 by omega), if_neg (show ¬ a = 0x2003 by omega),
      if_neg (show ¬ a = 0x2004 by omega), if_neg (show ¬ a = 0x2005 by omega),
      if_neg (show ¬ a = 0x2006 by omega), if_neg (show ¬ a = 0x2007 by omega),
      if_neg (show ¬ (0x4000 ≤ a ∧ a ≤ 0x4013) by omega),
      if_neg (show ¬ a = 0x4014 by omega), if_neg (show ¬ a = 0x4015 by omega),
      if_neg (show ¬ a = 0x4016 by omega), if_neg (show ¬ a = 0x4017 by omega),
      if_neg (show ¬ (0x6000 ≤ a ∧ a ≤ 0x7FFF) by omega)]

/-- C6 (witness): the hypotheses and conclusion at address `$2012`. -/
theorem claim_C6_witness :
    (0x2008 ≤ 0x2012 ∧ (0x2012 : Nat) ≤ 0x3FFF) ∧
    (mem0.get 0x2012 = some (.error (.unmappedRead 0x2012)) ∧
     mem0.set 0x2012 0 = some (.error (.unmappedWrite 0x2012))) :=
  ⟨by decide, claim_C6 mem0 0x2012 0 (by decide) (by decide)⟩

/-- `Cpu::push` always succeeds: the stack addresses `$0100–$01FF` decode to
RAM.  The byte lands at `0x100 + sp` and `sp` wraps down by one. -/
theorem push_eq (c : Cpu) (v : Nat) :
    c.push v = some (.ok ⟨c.vectors,
      { c.registers with sp := (c.registers.sp % 256 + 255) % 256 },
      { c.memory with
          cycles := c.memory.cycles + 1,
          ram := upd c.memory.ram (0x100 + c.registers.sp % 256) v }⟩) := by
  have hs : c.registers.sp % 256 < 256 := Nat.mod_lt _ (by norm_num)
  have hk : (0x100 + c.registers.sp % 256) % 0x800 = 0x100 + c.registers.sp % 256 :=
    Nat.mod_eq_of_lt (by omega)
  unfold Cpu.push Memory.set Memory.passSet Memory.cycle
  rw [if_pos (by omega : 0x100 + c.registers.sp % 256 ≤ 0x1fff), hk]

/-- C2 (amended): `Cpu::interrupt(target)` pushes the PC high byte at
`$0100+sp`, the PC low byte one below, then the status byte with bit 5 (U)
set AND bit 4 (B) set — exactly the byte PHP pushes, not the B-clear byte
the original claim states — and finally sets `pc = target`. -/
theorem claim_C2 (c : Cpu) (target : Nat) :
    (okCpu (c.interrupt target)).map (fun x => x.memory.ram (0x100 + c.registers.sp % 256)) =
      some ((c.registers.pc % 0x10000) >>> 8) ∧
    (okCpu (c.interrupt target)).map
        (fun x => x.memory.ram (0x100 + (c.registers.sp % 256 + 255) % 256)) =
      some (c.registers.pc &&& 0xFF) ∧
    (okCpu (c.interrupt target)).map
        (fun x => x.memory.ram (0x100 + (c.registers.sp % 256 + 254) % 256)) =
      some (c.registers.p % 256 ||| StatusRegister.ENABLED ||| StatusRegister.BREAK) ∧
    (okCpu (c.interrupt target)).map (fun x => x.registers.pc) = some (target % 0x10000) ∧
    (okCpu (c.interrupt target)).map (fun x => x.registers.sp) =
      some ((c.registers.sp % 256 + 253) % 256) ∧
    (okCpu c.php).map (fun x => x.memory.ram (0x100 + c.registers.sp % 256)) =
      some (c.registers.p % 256 ||| StatusRegister.ENABLED ||| StatusRegister.BREAK) ∧
    Nat.testBit (c.registers.p % 256 ||| StatusRegister.ENABLED ||| StatusRegister.BREAK) 4 =
      true ∧
    Nat.testBit (c.registers.p % 256 ||| StatusRegister.ENABLED ||| StatusRegister.BREAK) 5 =
      true := by
  simp only [Cpu.interrupt, Cpu.pushAddress, Cpu.php, push_eq]
  refine ⟨?_, ?_, ?_, ?_, ?_, ?_, ?_, ?_⟩
  · simp only [okCpu, Option.map, upd]
    rw [if_neg (by omega), if_neg (by omega)]
    simp
  · simp only [okCpu, Option.map, upd]
    rw [if_neg (by omega), if_pos (by omega)]
  · simp only [okCpu, Option.map, upd]
    rw [if_pos (by omega)]
  · simp only [okCpu, Option.map]
  · simp only [okCpu, Option.map, Option.some.injEq]
    omega
  · simp only [okCpu, Option.map, Memory.cycle, upd]
    simp
  · simp [Nat.testBit_or, StatusRegister.ENABLED, StatusRegister.BREAK]
    exact Or.inr (by decide)
  · simp [Nat.testBit_or, StatusRegister.ENABLED, StatusRegister.BREAK]
    exact Or.inl (Or.inr (by decide))

/-- C2 (counterexample): on a concrete CPU with a clear status byte
(`p = 0`, `sp = 0xFD`, `pc = 0x8123`), `interrupt(0x4321)` pushes
`0x81, 0x23` and then the status byte `0x30` — whose bit 4 (B) is set — at
`$01FB`, contradicting the claim that the interrupt-pushed status has B
cleared to 0. -/
theorem claim_C2_counterexample :
    (okCpu (cpu0.interrupt 0x4321)).map (fun c => c.memory.ram 0x1FD) = some 0x81 ∧
    (okCpu (cpu0.interrupt 0x4321)).map (fun c => c.memory.ram 0x1FC) = some 0x23 ∧
    (okCpu (cpu0.interrupt 0x4321)).map (fun c => c.memory.ram 0x1FB) = some 0x30 ∧
    Nat.testBit 0x30 4 = true ∧
    (okCpu (cpu0.interrupt 0x4321)).map (fun c => c.registers.pc) = some 0x4321 :=
  ⟨rfl, rfl, rfl, by decide, rfl⟩

/-- C4 (code bug): evaluating `Cpu::add` at `a = 0x80`, `m = 0xFF` with the
carry flag set: the sum byte is `0x80 = (0x80 + 0xFF + 1) % 256` and carry
comes out set, as the claim states, but the overflow flag is set even though
the specified 6502 formula `((a ^ r) & (m ^ r) & 0x80) != 0` is false here
(the exact signed sum is `-128 + (-1) + 1 = -128`, representable).  The
source's two-step `checked_add` detection reports the intermediate `a + m`
step (`-129`) although adding the carry brings the result back into
range. -/
theorem claim_C4 :
    (cpuAdd StatusRegister.CARRY 0x80 0xFF).1 = 0x80 ∧
    flagContains (cpuAdd StatusRegister.CARRY 0x80 0xFF).2 StatusRegister.CARRY = true ∧
    flagContains (cpuAdd StatusRegister.CARRY 0x80 0xFF).2 StatusRegister.OVERFLOW = true ∧
    specAdcOverflow 0x80 0xFF 0x80 = false := by
  decide

/-- Closed form of the OAM-DMA read loop over RAM: when every source address
stays below `$2000`, the loop succeeds, charges two bus cycles per byte, and
collects the RAM bytes into the buffer. -/
theorem dmaGo_ram (base : Nat) :
    ∀ (n i : Nat) (m : Memory) (acc : Nat → Nat), base + i + n ≤ 0x2000 →
    Memory.dmaGo base i n m acc =
      some (.ok (m.cycleMany (2 * n),
        fun j => if i ≤ j ∧ j < i + n then m.ram ((base + j) % 0x800) else acc j)) := by
  intro n
  induction n with
  | zero =>
    intro i m acc h
    have hf : (fun j => if i ≤ j ∧ j < i + 0 then m.ram ((base + j) % 0x800) else acc j)
        = acc := by
      funext j
      rw [if_neg (by omega)]
    rw [hf]
    rfl
  | succ n ih =>
    intro i m acc h
    have hget : m.get (base + i) = some (.ok (m.ram ((base + i) % 0x800), m.cycle)) := by
      unfold Memory.get Memory.passGet Memory.cycle
      rw [if_pos (by omega)]
    simp only [Memory.dmaGo, hget]
    rw [ih (i + 1) m.cycle.cycle (upd acc i (m.ram ((base + i) % 0x800))) (by omega)]
    have hm : m.cycle.cycle.cycleMany (2 * n) = m.cycleMany (2 * (n + 1)) := by
      cases m
      simp [Memory.cycle, Memory.cycleMany]
      omega
    have hf : (fun j => if i + 1 ≤ j ∧ j < i + 1 + n
          then m.cycle.cycle.ram ((base + j) % 0x800)
          else upd acc i (m.ram ((base + i) % 0x800)) j)
        = fun j => if i ≤ j ∧ j < i + (n + 1) then m.ram ((base + j) % 0x800) else acc j := by
      funext j
      by_cases h1 : i + 1 ≤ j ∧ j < i + 1 + n
      · rw [if_pos h1, if_pos (by omega)]
        rfl
      · rw [if_neg h1]
        unfold upd
        by_cases h2 : j = i
        · rw [if_pos h2, if_pos (by omega), h2]
        · rw [if_neg h2, if_neg (by omega)]
    rw [hm, hf]

/-- `Memory::oam_dma` from a RAM page `p ≤ 0x1F`: 512 read cycles plus the
wait cycle, and the OAM rebuilt from RAM bytes `p*256 ..= p*256+255`. -/
theorem oamDma_ram (m : Memory) (p : Nat) (hp : p ≤ 0x1F) :
    m.oamDma p = some (.ok { m.cycleMany 513 with ppu := m.ppu.replaceOam (dmaBytes m p) }) := by
  have hbase : (p % 256) <<< 8 = p * 256 := by
    rw [Nat.shiftLeft_eq, Nat.mod_eq_of_lt (by omega)]
  have hf : (fun j => if 0 ≤ j ∧ j < 0 + 256 then m.ram ((p * 256 + j) % 0x800) else 0)
      = dmaBytes m p := by
    funext j
    unfold dmaBytes
    by_cases h1 : j < 256
    · rw [if_pos (by omega), if_pos h1]
    · rw [if_neg (by omega), if_neg h1]
  simp only [Memory.oamDma, hbase]
  rw [dmaGo_ram (p * 256) 256 0 m (fun _ => 0) (by omega)]
  simp only [hf]
  cases m
  simp [Memory.cycle, Memory.cycleMany]

/-- C3 (amended): for every page `p` whose 256 source addresses decode to
RAM (`p ≤ 0x1F`), writing `p` to `$4014` copies RAM bytes
`p*256 ..= p*256+255` into the 64 OAM sprites in order (byte `4i` to sprite
`i`'s y, `4i+1` tile number, `4i+2` attributes, `4i+3` x) and increments the
cycle counter by exactly 513 beyond the one cycle charged for the
triggering write (514 in total). -/
theorem claim_C3 (m : Memory) (p : Nat) (hp : p ≤ 0x1F) :
    (okWrite (m.set 0x4014 p)).map Memory.cycles = some (m.cycles + 514) ∧
    (∀ i, i < 64 → (okWrite (m.set 0x4014 p)).map (fun mm => mm.ppu.memory.oam i) =
      some ⟨m.ram ((p * 256 + i * 4) % 0x800), m.ram ((p * 256 + (i * 4 + 1)) % 0x800),
            m.ram ((p * 256 + (i * 4 + 2)) % 0x800),
            m.ram ((p * 256 + (i * 4 + 3)) % 0x800)⟩) := by
  have hset : m.set 0x4014 p = m.cycle.oamDma p := rfl
  rw [hset, oamDma_ram m.cycle p hp]
  constructor
  · simp [okWrite, Memory.cycle, Memory.cycleMany]
  · intro i hi
    simp [okWrite, Ppu.replaceOam, dmaBytes, Memory.cycle]
    refine ⟨?_, ?_, ?_, ?_⟩ <;> (intro h; omega)

/-- C3 (witness): the hypothesis and conclusion at page 2 on a fresh bus. -/
theorem claim_C3_witness :
    (2 ≤ 0x1F) ∧
    ((okWrite (mem0.set 0x4014 2)).map Memory.cycles = some (mem0.cycles + 514) ∧
     (∀ i, i < 64 → (okWrite (mem0.set 0x4014 2)).map (fun mm => mm.ppu.memory.oam i) =
       some ⟨mem0.ram ((2 * 256 + i * 4) % 0x800), mem0.ram ((2 * 256 + (i * 4 + 1)) % 0x800),
             mem0.ram ((2 * 256 + (i * 4 + 2)) % 0x800),
             mem0.ram ((2 * 256 + (i * 4 + 3)) % 0x800)⟩)) :=
  ⟨by decide, claim_C3 mem0 2 (by decide)⟩

/-- C3 (counterexample): for page `p = 0x20` the very first DMA source read
hits `$2000`, which the bus cannot read, so the `$4014` write returns
`UnmappedRead($2000)` — no bytes are copied and only two cycles are charged
— contradicting the claim for every page value. -/
theorem claim_C3_counterexample :
    mem0.set 0x4014 0x20 = some (.error (.unmappedRead 0x2000)) := rfl

/-- One render dot advances the scan counters exactly like `scanStep`. -/
theorem renderDot_scan (hit : Nat → Bool) (s : RenderScan) :
    ((renderDot hit s).scanX, (renderDot hit s).scanY) = scanStep (s.scanX, s.scanY) := by
  simp only [renderDot, scanStep]
  split_ifs <;> rfl

/-- The render dot loop never assigns the vblank status flag. -/
theorem renderDot_vblank (hit : Nat → Bool) (s : RenderScan) :
    (renderDot hit s).vBlank = s.vBlank := by
  simp only [renderDot]
  split_ifs <;> rfl

/-- The local `has_v_blank` latch is never cleared by a dot. -/
theorem renderDot_hv_mono (hit : Nat → Bool) (s : RenderScan) (h : s.hasVBlank = true) :
    (renderDot hit s).hasVBlank = true := by
  simp only [renderDot]
  split_ifs <;> simp_all

/-- The dot processed at `(scan_x, scan_y) = (1, 241)` latches `has_v_blank`. -/
theorem renderDot_hv_set (hit : Nat → Bool) (s : RenderScan)
    (hx : s.scanX = 1) (hy : s.scanY = 241) :
    (renderDot hit s).hasVBlank = true := by
  simp only [renderDot, hx, hy]
  norm_num

/-- Scan counters after `n` dots are `scanStep` iterated. -/
theorem renderDots_scan (hit : Nat → Bool) (n : Nat) :
    ∀ s : RenderScan,
      ((renderDots hit n s).scanX, (renderDots hit n s).scanY) =
        scanStep^[n] (s.scanX, s.scanY) := by
  induction n with
  | zero => intro s; rfl
  | succ n ih =>
    intro s
    rw [Function.iterate_succ_apply, ← renderDot_scan hit s]
    exact ih (renderDot hit s)

/-- The vblank flag is untouched over any number of dots. -/
theorem renderDots_vblank (hit : Nat → Bool) (n : Nat) :
    ∀ s : RenderScan, (renderDots hit n s).vBlank = s.vBlank := by
  induction n with
  | zero => intro s; rfl
  | succ n ih =>
    intro s
    calc (renderDots hit n (renderDot hit s)).vBlank
        = (renderDot hit s).vBlank := ih (renderDot hit s)
      _ = s.vBlank := renderDot_vblank hit s

/-- Splitting a dot run. -/
theorem renderDots_split (hit : Nat → Bool) (a : Nat) :
    ∀ (b : Nat) (s : RenderScan),
      renderDots hit (a + b) s = renderDots hit b (renderDots hit a s) := by
  induction a with
  | zero => intro b s; rw [Nat.zero_add]; rfl
  | succ a ih =>
    intro b s
    rw [Nat.succ_add]
    exact ih b (renderDot hit s)

/-- `has_v_blank` stays latched over any number of dots. -/
theorem renderDots_hv_mono (hit : Nat → Bool) (n : Nat) :
    ∀ s : RenderScan, s.hasVBlank = true → (renderDots hit n s).hasVBlank = true := by
  induction n with
  | zero => intro s h; exact h
  | succ n ih =>
    intro s h
    exact ih (renderDot hit s) (renderDot_hv_mono hit s h)

/-- One `scanStep` from dot index `k` lands on dot index `(k + 1) % 89342`. -/
theorem scanStep_ofIdx (k : Nat) (hk : k < 89342) :
    scanStep (ofIdx k) = ofIdx ((k + 1) % 89342) := by
  unfold scanStep ofIdx
  by_cases h1 : 341 ≤ k % 341 + 1
  · rw [if_pos h1]
    by_cases h2 : 262 ≤ k / 341 + 1
    · rw [if_pos h2]
      simp only [Prod.mk.injEq]
      omega
    · rw [if_neg h2]
      simp only [Prod.mk.injEq]
      omega
  · rw [if_neg h1]
    simp only [Prod.mk.injEq]
    omega

/-- Iterated `scanStep` from dot index `k`: the dot index advances modulo
`89342 = 341 × 262`. -/
theorem scanIter_ofIdx (n : Nat) :
    ∀ k : Nat, k < 89342 → scanStep^[n] (ofIdx k) = ofIdx ((k + n) % 89342) := by
  induction n with
  | zero =>
    intro k hk
    rw [Function.iterate_zero_apply, Nat.add_zero, Nat.mod_eq_of_lt hk]
  | succ n ih =>
    intro k hk
    rw [Function.iterate_succ_apply, scanStep_ofIdx k hk,
      ih ((k + 1) % 89342) (Nat.mod_lt _ (by norm_num))]
    congr 1
    omega

/-- After `82183` dots from `(0, 0)` the dot at `(1, 241)` has been
processed, so `has_v_blank` is latched. -/
theorem renderDots_hv_82183 (hit : Nat → Bool) (sh vb hv : Bool) :
    (renderDots hit 82183 ⟨0, 0, sh, vb, hv⟩).hasVBlank = true := by
  have hsplit : renderDots hit 82183 ⟨0, 0, sh, vb, hv⟩ =
      renderDots hit 1 (renderDots hit 82182 ⟨0, 0, sh, vb, hv⟩) :=
    renderDots_split hit 82182 1 _
  have hpos := renderDots_scan hit 82182 ⟨0, 0, sh, vb, hv⟩
  rw [show (((⟨0, 0, sh, vb, hv⟩ : RenderScan)).scanX,
        ((⟨0, 0, sh, vb, hv⟩ : RenderScan)).scanY) = ofIdx 0 from rfl,
    scanIter_ofIdx 82182 0 (by norm_num)] at hpos
  have hval : ofIdx ((0 + 82182) % 89342) = ((1 : Nat), (241 : Nat)) := by
    norm_num [ofIdx]
  rw [hval] at hpos
  have hone : renderDots hit 1 (renderDots hit 82182 ⟨0, 0, sh, vb, hv⟩) =
      renderDot hit (renderDots hit 82182 ⟨0, 0, sh, vb, hv⟩) := rfl
  rw [hsplit, hone]
  simp only [Prod.mk.injEq] at hpos
  exact renderDot_hv_set hit _ hpos.1 hpos.2

/-- C9 (amended): starting the dot clock at `(scan_x, scan_y) = (0, 0)`,
after exactly `341 × 262 = 89,342` dots the counters return to `(0, 0)`;
but over the frame the PPU vblank status flag is never assigned by the
renderer — after any number of dots it still holds its initial value.  The
pass over `(241, 1)` only latches the renderer-local `has_v_blank` (used to
emit `SendNMI`/the finished frame), and the pass over `(261, 1)` clears only
`sprite_zero_hit`. -/
theorem claim_C9 (hit : Nat → Bool) (sh vb hv : Bool) :
    (renderDots hit 89342 ⟨0, 0, sh, vb, hv⟩).scanX = 0 ∧
    (renderDots hit 89342 ⟨0, 0, sh, vb, hv⟩).scanY = 0 ∧
    (∀ n, (renderDots hit n ⟨0, 0, sh, vb, hv⟩).vBlank = vb) ∧
    (renderDots hit 82183 ⟨0, 0, sh, vb, hv⟩).hasVBlank = true := by
  have hpos := renderDots_scan hit 89342 ⟨0, 0, sh, vb, hv⟩
  rw [show (((⟨0, 0, sh, vb, hv⟩ : RenderScan)).scanX,
        ((⟨0, 0, sh, vb, hv⟩ : RenderScan)).scanY) = ofIdx 0 from rfl,
    scanIter_ofIdx 89342 0 (by norm_num)] at hpos
  have hval : ofIdx ((0 + 89342) % 89342) = ((0 : Nat), (0 : Nat)) := by
    norm_num [ofIdx]
  rw [hval] at hpos
  simp only [Prod.mk.injEq] at hpos
  exact ⟨hpos.1, hpos.2, fun n => renderDots_vblank hit n _,
    renderDots_hv_82183 hit sh vb hv⟩

/-- C9 (counterexample): running the dot clock from `(0, 0)` with the vblank
flag initially false, after `82,183` dots the clock has passed
`(scan_y, scan_x) = (241, 1)` — it now sits at `(241, 2)` and the local
`has_v_blank` latch is set — yet the vblank status flag is still false, and
it is still false after the full `89,342`-dot frame: the renderer never sets
(or clears) `vblank`, contradicting the claim that it is raised and cleared
once per frame. -/
theorem claim_C9_counterexample :
    (renderDots (fun _ => false) 82183 ⟨0, 0, false, false, false⟩).scanX = 2 ∧
    (renderDots (fun _ => false) 82183 ⟨0, 0, false, false, false⟩).scanY = 241 ∧
    (renderDots (fun _ => false) 82183 ⟨0, 0, false, false, false⟩).hasVBlank = true ∧
    (renderDots (fun _ => false) 82183 ⟨0, 0, false, false, false⟩).vBlank = false ∧
    (renderDots (fun _ => false) 89342 ⟨0, 0, false, false, false⟩).vBlank = false := by
  have hpos := renderDots_scan (fun _ => false) 82183 ⟨0, 0, false, false, false⟩
  rw [show (((⟨0, 0, false, false, false⟩ : RenderScan)).scanX,
        ((⟨0, 0, false, false, false⟩ : RenderScan)).scanY) = ofIdx 0 from rfl,
    scanIter_ofIdx 82183 0 (by norm_num)] at hpos
  have hval : ofIdx ((0 + 82183) % 89342) = ((2 : Nat), (241 : Nat)) := by
    norm_num [ofIdx]
  rw [hval] at hpos
  simp only [Prod.mk.injEq] at hpos
  exact ⟨hpos.1, hpos.2, renderDots_hv_82183 (fun _ => false) false false false,
    renderDots_vblank (fun _ => false) 82183 _, renderDots_vblank (fun _ => false) 89342 _⟩

/-- A bus read in `$8000–$FFFF` with a non-empty PRG bank: returns the
mirrored PRG byte and charges one cycle. -/
theorem get_rom (m : Memory) (a : Nat) (h1 : 0x8000 ≤ a) (h2 : a ≤ 0xffff)
    (h : m.rom.prgLen ≠ 0) :
    m.get a = some (.ok (m.rom.prg ((a - 0x8000) % m.rom.prgLen), m.cycle)) := by
  unfold Memory.get Memory.passGet
  rw [if_neg (show ¬ a ≤ 0x1fff by omega), if_neg (show ¬ a = 0x2002 by omega),
    if_neg (show ¬ a = 0x2004 by omega), if_neg (show ¬ a = 0x2007 by omega),
    if_neg (show ¬ a = 0x4015 by omega), if_neg (show ¬ a = 0x4016 by omega),
    if_neg (show ¬ a = 0x4017 by omega),
    if_neg (show ¬ (0x6000 ≤ a ∧ a ≤ 0x7FFF) by omega),
    if_pos (show 0x8000 ≤ a ∧ a ≤ 0xffff by omega),
    if_neg (show ¬ m.cycle.rom.prgLen = 0 from h)]
  rfl

/-- A 16-bit read from PRG space succeeds and charges two cycles. -/
theorem getShort_rom (m : Memory) (a : Nat) (h1 : 0x8000 ≤ a) (h2 : a ≤ 0xfffe)
    (h : m.rom.prgLen ≠ 0) :
    ∃ value, m.getShort a = some (.ok (value, m.cycle.cycle)) := by
  have ha : a % 0x10000 = a := Nat.mod_eq_of_lt (by omega)
  have hb : (a + 1) % 0x10000 = a + 1 := Nat.mod_eq_of_lt (by omega)
  refine ⟨(m.rom.prg ((a + 1 - 0x8000) % m.rom.prgLen)) <<< 8 |||
    m.rom.prg ((a - 0x8000) % m.rom.prgLen), ?_⟩
  simp only [Memory.getShort, ha, hb, get_rom m a h1 (by omega) h,
    get_rom m.cycle (a + 1) (by omega) (by omega) h]
  rfl

/-- `Vectors::new` succeeds on any memory with a non-empty PRG bank; its
only side effect is six bus cycles. -/
theorem vectors_new_eq (m : Memory) (h : m.rom.prgLen ≠ 0) :
    ∃ v : Vectors, Vectors.new m = some (v, m.cycleMany 6) := by
  obtain ⟨v1, e1⟩ := getShort_rom m 0xFFFA (by norm_num) (by norm_num) h
  obtain ⟨v2, e2⟩ := getShort_rom m.cycle.cycle 0xFFFC (by norm_num) (by norm_num) h
  obtain ⟨v3, e3⟩ := getShort_rom m.cycle.cycle.cycle.cycle 0xFFFE (by norm_num) (by norm_num) h
  refine ⟨⟨v1, v2, v3⟩, ?_⟩
  simp only [Vectors.new, e1, e2, e3]
  rfl

/-- Restoring any snapshot against a ROM with a non-empty PRG bank succeeds,
and snapshotting the restored CPU reproduces the snapshot exactly. -/
theorem restore_snapshot (s : CpuState) (rom : Rom) (h : rom.prgLen ≠ 0) :
    (s.restore rom).map CpuState.ofCpu = some s := by
  simp only [CpuState.restore]
  obtain ⟨v, hv⟩ := vectors_new_eq
    (Memory.mk 0 s.ram rom ⟨s.ppu.registers.toRegisters, s.ppu.memory.restore rom⟩
      (fun _ => 0) s.controllerCycles) h
  rw [hv]
  rfl

/-- C8 (amended): for every CPU state and every ROM with a non-empty PRG
bank, taking a snapshot, restoring it, and snapshotting again yields an
identical snapshot (`snapshot ∘ restore == snapshot`).  The stepping half of
the original claim is refuted separately: restore zeroes `saved` and the
cycle counter, so execution that reads save RAM diverges. -/
theorem claim_C8 (c : Cpu) (rom : Rom) (h : rom.prgLen ≠ 0) :
    ((CpuState.ofCpu c).restore rom).map CpuState.ofCpu = some (CpuState.ofCpu c) :=
  restore_snapshot (CpuState.ofCpu c) rom h

/-- C8 (witness): the hypothesis and conclusion at a concrete CPU over the
16 KiB cartridge `romA`. -/
theorem claim_C8_witness :
    romA.prgLen ≠ 0 ∧
    ((CpuState.ofCpu cpuA).restore romA).map CpuState.ofCpu = some (CpuState.ofCpu cpuA) :=
  ⟨by decide, claim_C8 cpuA romA (by decide)⟩

/-- C8 (counterexample): a reachable state on which stepping diverges after
a snapshot round trip.  From reset of `romA` (`LDA #$42; STA $6000;
LDA #$00; LDA $6000`), three steps reach `cpuA3`: `a = 0`, save-RAM byte 0
holds `0x42`, `pc = $8007`.  Restoring its snapshot (`cpuA3r`) zeroes save
RAM, so the fourth step `LDA $6000` loads `a = 0x42` on the original but
`a = 0x00` on the restored CPU — the register traces differ, refuting the
claim that stepping after a round trip produces identical traces. -/
theorem claim_C8_counterexample :
    cpuA3.map (fun c => c.registers.pc) = some 0x8007 ∧
    cpuA3r.map (fun c => c.registers.pc) = some 0x8007 ∧
    cpuA3.map (fun c => c.memory.saved 0) = some 0x42 ∧
    cpuA3r.map (fun c => c.memory.saved 0) = some 0x00 ∧
    (stepOk cpuA3).map (fun c => c.registers.a) = some 0x42 ∧
    (stepOk cpuA3r).map (fun c => c.registers.a) = some 0x00 :=
  ⟨rfl, rfl, rfl, rfl, rfl, rfl⟩
